import Mathlib

set_option maxRecDepth 10000

/-!
Verification development for the DCPU-16 emulator core (Go package dcpu16).

The Go source is shallowly embedded: the mutable CPU object becomes the
structure `CPU`; host pointers into guest state (returned by the Go `lea`
function) become the explicit location type `Loc`; machine words (uint16)
are `Nat` values reduced modulo 2^16 at each store; Go `panic` (the fatal
machine fault raised on interrupt-queue overflow) makes `execute` return
an `Option CPU`, `none` standing for the fault.
-/

namespace DCPU16

/-- Word modulus: 2^16, the size of the uint16 value space. -/
abbrev W : Nat := 65536

/-- Reduce a natural number to a 16-bit word value (Go uint16 conversion). -/
def wrap (n : Nat) : Nat := n % W

/-- Reinterpret a 16-bit word as a signed int16 (Go int16(x) on a uint16 x). -/
def toI16 (n : Nat) : Int := if n < 32768 then (n : Int) else (n : Int) - 65536

/-- Two's-complement wrap of an integer into the int32 range
(Go arithmetic on int32 values wraps modulo 2^32). -/
def wrapI32 (v : Int) : Int :=
  let m := v % 4294967296
  if m < 2147483648 then m else m - 4294967296

/-- Truncate an integer to a 16-bit word, two's complement
(Go uint16(v) applied to a signed value). -/
def toW (v : Int) : Nat := (v % 65536).toNat

/-- Arithmetic right shift of an integer by k bits (Go >> on signed values):
floor division by 2^k. -/
def sshr (v : Int) (k : Nat) : Int := Int.fdiv v ((2 : Int) ^ k)

-- Primary opcode constants (Go: const ( EXT = iota; SET; ... ; STI; STD )).
abbrev EXT : Nat := 0
abbrev SET : Nat := 1
abbrev ADD : Nat := 2
abbrev SUB : Nat := 3
abbrev MUL : Nat := 4
abbrev MLI : Nat := 5
abbrev DIV : Nat := 6
abbrev DVI : Nat := 7
abbrev MOD : Nat := 8
abbrev MDI : Nat := 9
abbrev AND : Nat := 10
abbrev BOR : Nat := 11
abbrev XOR : Nat := 12
abbrev SHR : Nat := 13
abbrev ASR : Nat := 14
abbrev SHL : Nat := 15
abbrev IFB : Nat := 16
abbrev IFC : Nat := 17
abbrev IFE : Nat := 18
abbrev IFN : Nat := 19
abbrev IFG : Nat := 20
abbrev IFA : Nat := 21
abbrev IFL : Nat := 22
abbrev IFU : Nat := 23
abbrev ADX : Nat := 26
abbrev SBX : Nat := 27
abbrev STI : Nat := 30
abbrev STD : Nat := 31

-- Extended opcode constants (Go: const ( _ = iota; JSR; ...; HWI )).
abbrev JSR : Nat := 1
abbrev INT : Nat := 8
abbrev IAG : Nat := 9
abbrev IAS : Nat := 10
abbrev RFI : Nat := 11
abbrev IAQ : Nat := 12
abbrev HWN : Nat := 16
abbrev HWQ : Nat := 17
abbrev HWI : Nat := 18

/-- Queue capacity (Go: MAX_INTQUEUE = 256). -/
abbrev MAX_INTQUEUE : Nat := 256

/-- The DCPU16 machine state (Go struct DCPU16).  The sync.Mutex field only
serializes external access and carries no machine state, so it is omitted;
the two scratch words tmpa/tmpb that Go uses as literal-operand holders are
kept, because the literal-destination check compares pointer identity with
tmpb. -/
structure CPU where
  register : Fin 8 → Nat
  memory : Nat → Nat
  pc : Nat
  sp : Nat
  ex : Nat
  ia : Nat
  tick : Nat
  intQueueing : Bool
  intQueue : List Nat
  tmpa : Nat
  tmpb : Nat

/-- A resolved operand target: the Lean rendering of the host pointer the Go
lea function returns (pointer to a register cell, a memory cell, one of the
special registers, or one of the two literal scratch words). -/
inductive Loc where
  | reg (i : Fin 8)
  | mem (a : Nat)
  | lpc
  | lsp
  | lex
  | tmpa
  | tmpb
deriving DecidableEq

/-- Role of an operand: first (a) or second (b) position.  Go distinguishes
the roles by which scratch word is passed to lea. -/
inductive Role where
  | ra
  | rb
deriving DecidableEq

/-- The scratch word serving a given operand role. -/
def tmpLoc : Role → Loc
  | .ra => .tmpa
  | .rb => .tmpb

/-- Read through a resolved operand target (Go pointer dereference). -/
def getLoc (c : CPU) : Loc → Nat
  | .reg i => c.register i
  | .mem a => c.memory a
  | .lpc => c.pc
  | .lsp => c.sp
  | .lex => c.ex
  | .tmpa => c.tmpa
  | .tmpb => c.tmpb

/-- Write through a resolved operand target (Go assignment through the
pointer); the stored value is a uint16, hence wrapped. -/
def setLoc (c : CPU) : Loc → Nat → CPU
  | .reg i, v => { c with register := Function.update c.register i (wrap v) }
  | .mem a, v => { c with memory := Function.update c.memory a (wrap v) }
  | .lpc, v => { c with pc := wrap v }
  | .lsp, v => { c with sp := wrap v }
  | .lex, v => { c with ex := wrap v }
  | .tmpa, v => { c with tmpa := wrap v }
  | .tmpb, v => { c with tmpb := wrap v }

/-- Go nextWord: returns memory[pc], then increments pc and the tick counter
(both uint16, wrapping). -/
def nextWord (c : CPU) : Nat × CPU :=
  (c.memory (wrap c.pc), { c with pc := wrap (c.pc + 1), tick := wrap (c.tick + 1) })

/-- Go push: sp is pre-decremented (uint16 wrap) and a pointer to the new
top-of-stack cell is returned. -/
def push (c : CPU) : Loc × CPU :=
  let sp := wrap (c.sp + (W - 1))
  (.mem sp, { c with sp := sp })

/-- Go pushValue: sp is pre-decremented and the value stored at the new sp. -/
def pushValue (c : CPU) (v : Nat) : CPU :=
  let sp := wrap (c.sp + (W - 1))
  { c with sp := sp, memory := Function.update c.memory sp (wrap v) }

/-- Go pop: returns a pointer to memory[sp], then post-increments sp. -/
def pop (c : CPU) : Loc × CPU :=
  (.mem (wrap c.sp), { c with sp := wrap (c.sp + 1) })

/-- Go lea (load effective address): decodes a 6-bit operand field to a
read/write target, fetching successor words (and thereby advancing pc and
tick) where the addressing mode requires it.  Mirrors the Go switch
branch for branch; all address arithmetic is uint16 (wrapped). -/
def lea (c : CPU) (addr : Nat) (r : Role) : Loc × CPU :=
  if h1 : addr ≤ 0x07 then
    (.reg ⟨addr, by omega⟩, c)
  else if h2 : addr ≤ 0x0f then
    (.mem (wrap (c.register ⟨addr - 0x08, by omega⟩)), c)
  else if h3 : addr ≤ 0x17 then
    let n := nextWord c
    (.mem (wrap (n.1 + n.2.register ⟨addr - 0x10, by omega⟩)), n.2)
  else if addr = 0x18 then
    -- Go: POP when the scratch word passed is tmpa (role a), PUSH otherwise.
    if r = .ra then pop c else push c
  else if addr = 0x19 then
    (.mem (wrap c.sp), c)
  else if addr = 0x1a then
    let n := nextWord c
    (.mem (wrap (n.2.sp + n.1)), n.2)
  else if addr = 0x1b then
    (.lsp, c)
  else if addr = 0x1c then
    (.lpc, c)
  else if addr = 0x1d then
    (.lex, c)
  else if addr = 0x1e then
    let n := nextWord c
    (.mem (wrap n.1), n.2)
  else if addr = 0x1f then
    let n := nextWord c
    (tmpLoc r, setLoc n.2 (tmpLoc r) n.1)
  else
    -- Go: *tmp = addr - 0x20 - 1 on uint16 (wraps: code 0x20 holds 0xFFFF).
    (tmpLoc r, setLoc c (tmpLoc r) (wrap (addr + (W - 0x21))))

/-- Go skipConditional: advance pc over one word; if the fetched word, compared
as a whole against the opcode constants IFB..IFU, lands in that range, advance
over one more word. -/
def skipConditional (c : CPU) : CPU :=
  let n := nextWord c
  if IFB ≤ n.1 ∧ n.1 ≤ IFU then (nextWord n.2).2 else n.2

/-- The extended-opcode arm of the Go execute switch (primary opcode 0).
At entry op is the value the a operand held before Go overwrote it with the
b operand's value, and c is the state after that overwrite.  Returns none
exactly where Go panics (interrupt-queue overflow in INT). -/
def extOp (op : Nat) (aloc : Loc) (c : CPU) : Option CPU :=
  if op = JSR then
    let c := pushValue c c.pc
    some { c with pc := wrap (getLoc c aloc), tick := wrap (c.tick + 2) }
  else if op = INT then
    if c.intQueue.length < MAX_INTQUEUE then
      some { c with intQueue := c.intQueue ++ [getLoc c aloc],
                    tick := wrap (c.tick + 3) }
    else
      none  -- Go panic: "Interrupt queue exceeded"
  else if op = IAG then
    some (setLoc c aloc c.ia)
  else if op = IAS then
    some { c with ia := wrap (getLoc c aloc) }
  else if op = RFI then
    let c := { c with intQueueing := false }
    let p1 := pop c
    let c := setLoc p1.2 (.reg 0) (getLoc p1.2 p1.1)
    let p2 := pop c
    let c := { p2.2 with pc := wrap (getLoc p2.2 p2.1) }
    some { c with tick := wrap (c.tick + 2) }
  else if op = IAQ then
    some { c with intQueueing := decide (getLoc c aloc ≠ 0),
                  tick := wrap (c.tick + 1) }
  else if op = HWN then
    some { c with register := Function.update c.register 0 0,
                  tick := wrap (c.tick + 1) }
  else if op = HWQ then
    some { c with tick := wrap (c.tick + 3) }  -- hardwareQuery is a no-op
  else if op = HWI then
    some { c with tick := wrap (c.tick + 3) }  -- handleHardwareInterrupt is a no-op
  else
    some c

/-- The opcode dispatch of Go execute: the switch on the masked 5-bit opcode,
taking the full opcode word w (several Go cases compare w itself against
opcode constants), the two resolved operands and the state after operand
resolution. -/
def dispatch (w : Nat) (aloc bloc : Loc) (c : CPU) : Option CPU :=
  if w &&& 0x001f = EXT then
    -- Extended opcode: the value of operand a is the extended opcode;
    -- Go then stores the value of b through the a target.
    let op := getLoc c aloc
    let c := setLoc c aloc (getLoc c bloc)
    extOp op aloc c
  else if w &&& 0x001f = SET then
    some (setLoc c bloc (getLoc c aloc))
  else if w &&& 0x001f = ADD then
    let v := getLoc c bloc + getLoc c aloc
    let c := { c with ex := wrap (v >>> 16) }
    let c := setLoc c bloc v
    some { c with tick := wrap (c.tick + 1) }
  else if w &&& 0x001f = SUB then
    let v : Int := (getLoc c bloc : Int) - (getLoc c aloc : Int)
    let c := { c with ex := toW (sshr v 16) }
    let c := setLoc c bloc (toW v)
    some { c with tick := wrap (c.tick + 1) }
  else if w &&& 0x001f = MUL ∨ w &&& 0x001f = MLI then
    -- Go compares the FULL opcode word with MUL to pick the branch.
    -- MUL: uint32 product reinterpreted as int32; MLI: int32 product of the
    -- (value-preservingly converted, hence non-negative) operands, wrapped.
    let v : Int :=
      if w = MUL then wrapI32 (((getLoc c bloc * getLoc c aloc) % 4294967296 : Nat) : Int)
      else wrapI32 ((getLoc c bloc : Int) * (getLoc c aloc : Int))
    let c := { c with ex := toW (sshr v 16) }
    let c := setLoc c bloc (toW v)
    some { c with tick := wrap (c.tick + 1) }
  else if w &&& 0x001f = DIV ∨ w &&& 0x001f = DVI then
    let av := getLoc c aloc
    let c :=
      if av = 0 then
        let c := setLoc c bloc 0
        { c with ex := 0 }
      else
        let v : Int :=
          if w = DIV then ((getLoc c bloc / av : Nat) : Int)
          else Int.tdiv (getLoc c bloc : Int) (av : Int)
        let c := { c with ex := toW (sshr v 16) }
        setLoc c bloc (toW v)
    some { c with tick := wrap (c.tick + 2) }
  else if w &&& 0x001f = MOD ∨ w &&& 0x001f = MDI then
    let av := getLoc c aloc
    let c :=
      if av = 0 then setLoc c bloc 0
      else if w = MOD then setLoc c bloc (getLoc c bloc % av)
      else setLoc c bloc (toW (Int.tmod (toI16 (getLoc c bloc)) (toI16 av)))
    some { c with tick := wrap (c.tick + 2) }
  else if w &&& 0x001f = AND then
    some (setLoc c bloc (getLoc c bloc &&& getLoc c aloc))
  else if w &&& 0x001f = BOR then
    some (setLoc c bloc (getLoc c bloc ||| getLoc c aloc))
  else if w &&& 0x001f = XOR then
    some (setLoc c bloc (getLoc c bloc ^^^ getLoc c aloc))
  else if w &&& 0x001f = SHR then
    let c := { c with ex := wrap (((getLoc c bloc <<< 16) % 4294967296) >>> getLoc c aloc) }
    some (setLoc c bloc (getLoc c bloc >>> getLoc c aloc))
  else if w &&& 0x001f = ASR then
    let c := { c with ex := toW (sshr (wrapI32 ((getLoc c bloc : Int) * 65536)) (getLoc c aloc)) }
    some (setLoc c bloc (toW (sshr (toI16 (getLoc c bloc)) (getLoc c aloc))))
  else if w &&& 0x001f = SHL then
    let c := { c with ex := wrap (((getLoc c bloc <<< getLoc c aloc) % 4294967296) >>> 16) }
    some (setLoc c bloc (getLoc c bloc <<< getLoc c aloc))
  else if w &&& 0x001f = IFB then
    let c := if ¬(getLoc c bloc &&& getLoc c aloc ≠ 0) then skipConditional c else c
    some { c with tick := wrap (c.tick + 1) }
  else if w &&& 0x001f = IFC then
    let c := if ¬(getLoc c bloc &&& getLoc c aloc = 0) then skipConditional c else c
    some { c with tick := wrap (c.tick + 1) }
  else if w &&& 0x001f = IFE then
    let c := if ¬(getLoc c bloc = getLoc c aloc) then skipConditional c else c
    some { c with tick := wrap (c.tick + 1) }
  else if w &&& 0x001f = IFN then
    let c := if ¬(getLoc c bloc ≠ getLoc c aloc) then skipConditional c else c
    some { c with tick := wrap (c.tick + 1) }
  else if w &&& 0x001f = IFG then
    let c := if ¬(getLoc c bloc > getLoc c aloc) then skipConditional c else c
    some { c with tick := wrap (c.tick + 1) }
  else if w &&& 0x001f = IFA then
    let c := if ¬(toI16 (getLoc c bloc) > toI16 (getLoc c aloc)) then skipConditional c else c
    some { c with tick := wrap (c.tick + 1) }
  else if w &&& 0x001f = IFL then
    let c := if ¬(getLoc c bloc < getLoc c aloc) then skipConditional c else c
    some { c with tick := wrap (c.tick + 1) }
  else if w &&& 0x001f = IFU then
    let c := if ¬(toI16 (getLoc c bloc) < toI16 (getLoc c aloc)) then skipConditional c else c
    some { c with tick := wrap (c.tick + 1) }
  else if w &&& 0x001f = ADX then
    let v : Int := (getLoc c bloc : Int) + (getLoc c aloc : Int) + (c.ex : Int)
    let c := if v > 32767 then { c with ex := 1 } else { c with ex := 0 }
    let c := setLoc c bloc (toW v)
    some { c with tick := wrap (c.tick + 2) }
  else if w &&& 0x001f = SBX then
    let v : Int := (getLoc c bloc : Int) - (getLoc c aloc : Int) + (c.ex : Int)
    let c := if v < -32768 then { c with ex := 0xffff } else { c with ex := 0 }
    let c := setLoc c bloc (toW v)
    some { c with tick := wrap (c.tick + 2) }
  else if w &&& 0x001f = STI ∨ w &&& 0x001f = STD then
    let c := setLoc c bloc (getLoc c aloc)
    -- Go compares the FULL opcode word with STI to decide increment/decrement.
    let c :=
      if w = STI then
        let c := { c with register := Function.update c.register 6 (wrap (c.register 6 + 1)) }
        { c with register := Function.update c.register 7 (wrap (c.register 7 + 1)) }
      else
        let c := { c with register := Function.update c.register 6 (wrap (c.register 6 + (W - 1))) }
        { c with register := Function.update c.register 7 (wrap (c.register 7 + (W - 1))) }
    some { c with tick := wrap (c.tick + 1) }
  else
    some c

/-- Go execute: runs a single instruction at pc.  Fetches the opcode word,
resolves operand a then operand b, suppresses the whole instruction body when
b resolved to the literal scratch word (unless the full opcode word lies in
IFB..IFU), then dispatches on the opcode. -/
def execute (c0 : CPU) : Option CPU :=
  let f := nextWord c0
  let w := f.1
  let ra := lea f.2 ((w &&& 0xFC00) >>> 10) .ra
  let aloc := ra.1
  let rb := lea ra.2 ((w &&& 0x03E0) >>> 5) .rb
  let bloc := rb.1
  let c := rb.2
  if bloc = Loc.tmpb ∧ ¬(IFB ≤ w ∧ w ≤ IFU) then
    -- "the assignment fails silently": Go returns here, executing nothing.
    some c
  else
    dispatch w aloc bloc c

/-- The interrupt-boundary block at the end of Go step: if queueing is off and
the queue is non-empty, the head message is dequeued; if additionally IA is
non-zero, queueing is turned on, pc then register A are pushed, and control
transfers to the handler with the message in A. -/
def processInterrupt (c : CPU) : CPU :=
  match c.intQueueing, c.intQueue with
  | false, a :: rest =>
    let c := { c with intQueue := rest }
    if c.ia ≠ 0 then
      let c := { c with intQueueing := true }
      let c := pushValue c c.pc
      let c := pushValue c (c.register 0)
      { c with pc := c.ia, register := Function.update c.register 0 a }
    else
      c
  | _, _ => c

/-- Go step: execute one instruction, then process at most one queued
interrupt.  The wall-clock pacing sleep at the end of step touches no CPU
state and is not modelled. -/
def step (c : CPU) : Option CPU := (execute c).map processInterrupt

/-- Fuel-indexed rendering of Go Run (an endless loop of step): runs n steps,
returning none as soon as a step faults. -/
def runFor : Nat → CPU → Option CPU
  | 0, c => some c
  | n + 1, c =>
    match step c with
    | none => none
    | some c1 => runFor n c1

/-- Go Registers: builds a fresh 14-word snapshot (make + copy of the eight
general registers, then the pseudo-registers pc, sp, ex, ia, tick and the
queueing flag as 0/1) and returns it; the CPU state itself is returned
unchanged alongside, making the read-only access explicit. -/
def Registers (c : CPU) : List Nat × CPU :=
  let r := [c.register 0, c.register 1, c.register 2, c.register 3,
            c.register 4, c.register 5, c.register 6, c.register 7]
           ++ List.replicate 6 0
  let r := ((((r.set 8 c.pc).set 9 c.sp).set 10 c.ex).set 11 c.ia).set 12 c.tick
  let r := r.set 13 (if c.intQueueing then 1 else 0)
  (r, c)

/-- A freshly constructed CPU (Go NewDCPU16 / zero value) with the given
memory contents. -/
def mkCPU (mem : Nat → Nat) : CPU :=
  { register := fun _ => 0, memory := mem, pc := 0, sp := 0, ex := 0, ia := 0,
    tick := 0, intQueueing := false, intQueue := [], tmpa := 0, tmpb := 0 }

/-- Program for the skip test: word 0 is IFN A, A (condition false, so the
next instruction is skipped); words 1,2 are SET A, next-word-literal 0x1234,
a two-word instruction. -/
def c2in : CPU :=
  mkCPU (fun a => if a = 0 then 0x0013 else if a = 1 then 0x7C01 else if a = 2 then 0x1234 else 0)

/-- Program for the literal-destination test: word 0 is ADD with destination
operand code 0x1F (next-word literal) and source the embedded literal 30;
word 1 is the destination literal 0xFFFF, so the ADD overflows. -/
def c3in : CPU :=
  mkCPU (fun a => if a = 0 then 0xFFE2 else if a = 1 then 0xFFFF else 0)

/-- Program for the DIV test: word 0 is DIV A, B; A = 1, B = 2. -/
def c4in : CPU :=
  { mkCPU (fun a => if a = 0 then 0x0406 else 0) with
    register := fun i => if i = 0 then 1 else if i = 1 then 2 else 0 }

/-- Program for the MOD test: word 0 is MOD A, B; A = 0xFFFF, B = 2. -/
def c5in : CPU :=
  { mkCPU (fun a => if a = 0 then 0x0408 else 0) with
    register := fun i => if i = 0 then 0xFFFF else if i = 1 then 2 else 0 }

/-- Program for the STI test: word 0 is STI A, B; all registers zero. -/
def c6in : CPU := mkCPU (fun a => if a = 0 then 0x041E else 0)

/-- Program with an undefined primary opcode (0x18) at address 0. -/
def c7in : CPU := mkCPU (fun a => if a = 0 then 0x18 else 0)

/-- Concrete state (memory filled with word 0x8C00: an extended instruction
whose a operand is the embedded literal 2) used to exercise the
extended-opcode arm at the undefined dispatched value 2. -/
def c7ext : CPU := mkCPU (fun _ => 0x8C00)

/-- State poised to execute INT (extended opcode 8, operand a the embedded
literal 8 encoded as 0x29, operand b register A) with a full queue. -/
def c8f : CPU := { mkCPU (fun _ => 0xA400) with intQueue := List.replicate 256 0 }

/-- Witness state for the queue invariant: every word is 0x03E1 (SET with a
literal destination, which returns early), empty queue. -/
def c8w : CPU := mkCPU (fun _ => 0x03E1)

/-- The state c8w after one step: pc and tick advanced by the opcode fetch and
the literal operand fetch, and the literal scratch word loaded. -/
def c8wOut : CPU := { c8w with pc := 2, tick := 2, tmpb := 0x03E1 }

/-- Witness state for interrupt delivery: the instruction at pc is the
literal-destination SET (early return), one message queued, IA = 0x42. -/
def c1w : CPU := { mkCPU (fun _ => 0x03E1) with intQueue := [0x1234], ia := 0x42 }

/-- The state c1w immediately after execute, before interrupt processing. -/
def c1t : CPU := { c1w with pc := 2, tick := 2, tmpb := 0x03E1 }

/-- Witness state for the push/pop round trip: zeroed machine. -/
def c9w : CPU := mkCPU (fun _ => 0)

/-! ## Frame lemmas for the state-threading helpers -/

@[simp] theorem setLoc_intQueue (c : CPU) (l : Loc) (v : Nat) :
    (setLoc c l v).intQueue = c.intQueue := by cases l <;> rfl

@[simp] theorem setLoc_intQueueing (c : CPU) (l : Loc) (v : Nat) :
    (setLoc c l v).intQueueing = c.intQueueing := by cases l <;> rfl

@[simp] theorem setLoc_ia (c : CPU) (l : Loc) (v : Nat) :
    (setLoc c l v).ia = c.ia := by cases l <;> rfl

@[simp] theorem pushValue_register (c : CPU) (v : Nat) :
    (pushValue c v).register = c.register := rfl

@[simp] theorem pushValue_pc (c : CPU) (v : Nat) : (pushValue c v).pc = c.pc := rfl

@[simp] theorem pushValue_ex (c : CPU) (v : Nat) : (pushValue c v).ex = c.ex := rfl

@[simp] theorem pushValue_ia (c : CPU) (v : Nat) : (pushValue c v).ia = c.ia := rfl

@[simp] theorem pushValue_tick (c : CPU) (v : Nat) : (pushValue c v).tick = c.tick := rfl

@[simp] theorem pushValue_intQueue (c : CPU) (v : Nat) :
    (pushValue c v).intQueue = c.intQueue := rfl

@[simp] theorem pushValue_intQueueing (c : CPU) (v : Nat) :
    (pushValue c v).intQueueing = c.intQueueing := rfl

@[simp] theorem nextWord_memory (c : CPU) : (nextWord c).2.memory = c.memory := rfl

@[simp] theorem nextWord_register (c : CPU) : (nextWord c).2.register = c.register := rfl

@[simp] theorem nextWord_ex (c : CPU) : (nextWord c).2.ex = c.ex := rfl

@[simp] theorem nextWord_ia (c : CPU) : (nextWord c).2.ia = c.ia := rfl

@[simp] theorem nextWord_sp (c : CPU) : (nextWord c).2.sp = c.sp := rfl

@[simp] theorem nextWord_intQueue (c : CPU) : (nextWord c).2.intQueue = c.intQueue := rfl

@[simp] theorem nextWord_intQueueing (c : CPU) :
    (nextWord c).2.intQueueing = c.intQueueing := rfl

@[simp] theorem pop_memory (c : CPU) : (pop c).2.memory = c.memory := rfl

@[simp] theorem pop_register (c : CPU) : (pop c).2.register = c.register := rfl

@[simp] theorem pop_ex (c : CPU) : (pop c).2.ex = c.ex := rfl

@[simp] theorem pop_ia (c : CPU) : (pop c).2.ia = c.ia := rfl

@[simp] theorem pop_intQueue (c : CPU) : (pop c).2.intQueue = c.intQueue := rfl

@[simp] theorem pop_intQueueing (c : CPU) : (pop c).2.intQueueing = c.intQueueing := rfl

@[simp] theorem push_memory (c : CPU) : (push c).2.memory = c.memory := by unfold push; rfl

@[simp] theorem push_register (c : CPU) : (push c).2.register = c.register := by unfold push; rfl

@[simp] theorem push_ex (c : CPU) : (push c).2.ex = c.ex := by unfold push; rfl

@[simp] theorem push_ia (c : CPU) : (push c).2.ia = c.ia := by unfold push; rfl

@[simp] theorem push_intQueue (c : CPU) : (push c).2.intQueue = c.intQueue := by unfold push; rfl

@[simp] theorem push_intQueueing (c : CPU) : (push c).2.intQueueing = c.intQueueing := by unfold push; rfl

section LeaFrame

-- wrap is kept opaque here so that defeq checks cannot wander into
-- unfolding Nat.mod on open terms.
attribute [local irreducible] wrap

/-- Operand resolution only ever touches pc, sp, tick and the two scratch
words: the register file, memory, EX, IA and the interrupt state pass
through lea untouched. -/
theorem lea_frame (c : CPU) (a : Nat) (r : Role) :
    ((lea c a r).2).register = c.register ∧ ((lea c a r).2).memory = c.memory ∧
    ((lea c a r).2).ex = c.ex ∧ ((lea c a r).2).ia = c.ia ∧
    ((lea c a r).2).intQueue = c.intQueue ∧
    ((lea c a r).2).intQueueing = c.intQueueing := by
  cases r <;>
  · unfold lea
    by_cases h1 : a ≤ 0x07
    · simp only [dif_pos h1]; first
      | done
      | (refine ⟨?_, ?_, ?_, ?_, ?_, ?_⟩ <;> trivial)
    simp only [dif_neg h1]
    by_cases h2 : a ≤ 0x0f
    · simp only [dif_pos h2]; first
      | done
      | (refine ⟨?_, ?_, ?_, ?_, ?_, ?_⟩ <;> trivial)
    simp only [dif_neg h2]
    by_cases h3 : a ≤ 0x17
    · simp only [dif_pos h3]; first
      | done
      | (refine ⟨?_, ?_, ?_, ?_, ?_, ?_⟩ <;> trivial)
    simp only [dif_neg h3]
    by_cases h4 : a = 0x18
    · simp only [if_pos h4]
      first
        | (simp only [if_true]
           unfold pop
           first
             | done
             | (refine ⟨?_, ?_, ?_, ?_, ?_, ?_⟩ <;> trivial))
        | (rw [if_neg (by decide : ¬(Role.rb = Role.ra))]
           unfold push
           first
             | done
             | (refine ⟨?_, ?_, ?_, ?_, ?_, ?_⟩ <;> trivial))
    simp only [if_neg h4]
    by_cases h5 : a = 0x19
    · simp only [if_pos h5]; first
      | done
      | (refine ⟨?_, ?_, ?_, ?_, ?_, ?_⟩ <;> trivial)
    simp only [if_neg h5]
    by_cases h6 : a = 0x1a
    · simp only [if_pos h6]; first
      | done
      | (refine ⟨?_, ?_, ?_, ?_, ?_, ?_⟩ <;> trivial)
    simp only [if_neg h6]
    by_cases h7 : a = 0x1b
    · simp only [if_pos h7]; first
      | done
      | (refine ⟨?_, ?_, ?_, ?_, ?_, ?_⟩ <;> trivial)
    simp only [if_neg h7]
    by_cases h8 : a = 0x1c
    · simp only [if_pos h8]; first
      | done
      | (refine ⟨?_, ?_, ?_, ?_, ?_, ?_⟩ <;> trivial)
    simp only [if_neg h8]
    by_cases h9 : a = 0x1d
    · simp only [if_pos h9]; first
      | done
      | (refine ⟨?_, ?_, ?_, ?_, ?_, ?_⟩ <;> trivial)
    simp only [if_neg h9]
    by_cases h10 : a = 0x1e
    · simp only [if_pos h10]; first
      | done
      | (refine ⟨?_, ?_, ?_, ?_, ?_, ?_⟩ <;> trivial)
    simp only [if_neg h10]
    by_cases h11 : a = 0x1f
    · simp only [if_pos h11]; first
      | done
      | (refine ⟨?_, ?_, ?_, ?_, ?_, ?_⟩ <;> trivial)
    simp only [if_neg h11]
    first
      | done
      | (refine ⟨?_, ?_, ?_, ?_, ?_, ?_⟩ <;> trivial)

end LeaFrame

@[simp] theorem lea_register (c : CPU) (a : Nat) (r : Role) :
    ((lea c a r).2).register = c.register := (lea_frame c a r).1

@[simp] theorem lea_memory (c : CPU) (a : Nat) (r : Role) :
    ((lea c a r).2).memory = c.memory := (lea_frame c a r).2.1

@[simp] theorem lea_ex (c : CPU) (a : Nat) (r : Role) :
    ((lea c a r).2).ex = c.ex := (lea_frame c a r).2.2.1

@[simp] theorem lea_ia (c : CPU) (a : Nat) (r : Role) :
    ((lea c a r).2).ia = c.ia := (lea_frame c a r).2.2.2.1

@[simp] theorem lea_intQueue (c : CPU) (a : Nat) (r : Role) :
    ((lea c a r).2).intQueue = c.intQueue := (lea_frame c a r).2.2.2.2.1

@[simp] theorem lea_intQueueing (c : CPU) (a : Nat) (r : Role) :
    ((lea c a r).2).intQueueing = c.intQueueing := (lea_frame c a r).2.2.2.2.2

@[simp] theorem skipConditional_intQueue (c : CPU) :
    (skipConditional c).intQueue = c.intQueue := by
  by_cases h : IFB ≤ (nextWord c).1 ∧ (nextWord c).1 ≤ IFU
  · simp only [skipConditional, if_pos h]; rfl
  · simp only [skipConditional, if_neg h]; rfl

@[simp] theorem skipConditional_intQueueing (c : CPU) :
    (skipConditional c).intQueueing = c.intQueueing := by
  by_cases h : IFB ≤ (nextWord c).1 ∧ (nextWord c).1 ≤ IFU
  · simp only [skipConditional, if_pos h]; rfl
  · simp only [skipConditional, if_neg h]; rfl

/-- Pointwise form of ite on machine states, for pushing the queue
projection through conditional state updates. -/
theorem ite_intQueue (P : Prop) [Decidable P] (A B : CPU) :
    (if P then A else B).intQueue = if P then A.intQueue else B.intQueue :=
  apply_ite _ P A B

/-- Through the extended-opcode arm, the interrupt queue grows only in INT
and only when its length was below the capacity: a queue within the 256
bound stays within it. -/
theorem extOp_queue (op : Nat) (aloc : Loc) (c c1 : CPU) (hle : c.intQueue.length ≤ 256)
    (h : extOp op aloc c = some c1) : c1.intQueue.length ≤ 256 := by
  unfold extOp at h
  repeat' split at h
  all_goals
    first
      | (injection h; done)
      | (injection h with h
         subst h
         try simp only [setLoc_intQueue, pushValue_intQueue, lea_intQueue, nextWord_intQueue,
           pop_intQueue, push_intQueue, skipConditional_intQueue, ite_intQueue,
           ite_self, List.length_append, List.length_cons, List.length_nil, MAX_INTQUEUE] at *
         omega)

/-- Through the full opcode dispatch, a queue within the 256 bound stays
within it. -/
theorem dispatch_queue (w : Nat) (aloc bloc : Loc) (c c1 : CPU)
    (hle : c.intQueue.length ≤ 256)
    (h : dispatch w aloc bloc c = some c1) : c1.intQueue.length ≤ 256 := by
  unfold dispatch at h
  by_cases h0 : w &&& 0x001f = EXT
  · rw [if_pos h0] at h
    exact extOp_queue _ _ _ _ (by simpa using hle) h
  rw [if_neg h0] at h
  by_cases h1 : w &&& 0x001f = SET
  · rw [if_pos h1] at h
    injection h with h
    subst h
    try simp only [setLoc_intQueue, pushValue_intQueue, lea_intQueue, nextWord_intQueue,
           pop_intQueue, push_intQueue, skipConditional_intQueue, ite_intQueue,
           ite_self, List.length_append, List.length_cons, List.length_nil, MAX_INTQUEUE] at *
    omega
  rw [if_neg h1] at h
  by_cases h2 : w &&& 0x001f = ADD
  · rw [if_pos h2] at h
    injection h with h
    subst h
    try simp only [setLoc_intQueue, pushValue_intQueue, lea_intQueue, nextWord_intQueue,
           pop_intQueue, push_intQueue, skipConditional_intQueue, ite_intQueue,
           ite_self, List.length_append, List.length_cons, List.length_nil, MAX_INTQUEUE] at *
    omega
  rw [if_neg h2] at h
  by_cases h3 : w &&& 0x001f = SUB
  · rw [if_pos h3] at h
    injection h with h
    subst h
    try simp only [setLoc_intQueue, pushValue_intQueue, lea_intQueue, nextWord_intQueue,
           pop_intQueue, push_intQueue, skipConditional_intQueue, ite_intQueue,
           ite_self, List.length_append, List.length_cons, List.length_nil, MAX_INTQUEUE] at *
    omega
  rw [if_neg h3] at h
  by_cases h4 : w &&& 0x001f = MUL ∨ w &&& 0x001f = MLI
  · rw [if_pos h4] at h
    injection h with h
    subst h
    try simp only [setLoc_intQueue, pushValue_intQueue, lea_intQueue, nextWord_intQueue,
           pop_intQueue, push_intQueue, skipConditional_intQueue, ite_intQueue,
           ite_self, List.length_append, List.length_cons, List.length_nil, MAX_INTQUEUE] at *
    omega
  rw [if_neg h4] at h
  by_cases h5 : w &&& 0x001f = DIV ∨ w &&& 0x001f = DVI
  · rw [if_pos h5] at h
    injection h with h
    subst h
    try simp only [setLoc_intQueue, pushValue_intQueue, lea_intQueue, nextWord_intQueue,
           pop_intQueue, push_intQueue, skipConditional_intQueue, ite_intQueue,
           ite_self, List.length_append, List.length_cons, List.length_nil, MAX_INTQUEUE] at *
    omega
  rw [if_neg h5] at h
  by_cases h6 : w &&& 0x001f = MOD ∨ w &&& 0x001f = MDI
  · rw [if_pos h6] at h
    injection h with h
    subst h
    try simp only [setLoc_intQueue, pushValue_intQueue, lea_intQueue, nextWord_intQueue,
           pop_intQueue, push_intQueue, skipConditional_intQueue, ite_intQueue,
           ite_self, List.length_append, List.length_cons, List.length_nil, MAX_INTQUEUE] at *
    omega
  rw [if_neg h6] at h
  by_cases h7 : w &&& 0x001f = AND
  · rw [if_pos h7] at h
    injection h with h
    subst h
    try simp only [setLoc_intQueue, pushValue_intQueue, lea_intQueue, nextWord_intQueue,
           pop_intQueue, push_intQueue, skipConditional_intQueue, ite_intQueue,
           ite_self, List.length_append, List.length_cons, List.length_nil, MAX_INTQUEUE] at *
    omega
  rw [if_neg h7] at h
  by_cases h8 : w &&& 0x001f = BOR
  · rw [if_pos h8] at h
    injection h with h
    subst h
    try simp only [setLoc_intQueue, pushValue_intQueue, lea_intQueue, nextWord_intQueue,
           pop_intQueue, push_intQueue, skipConditional_intQueue, ite_intQueue,
           ite_self, List.length_append, List.length_cons, List.length_nil, MAX_INTQUEUE] at *
    omega
  rw [if_neg h8] at h
  by_cases h9 : w &&& 0x001f = XOR
  · rw [if_pos h9] at h
    injection h with h
    subst h
    try simp only [setLoc_intQueue, pushValue_intQueue, lea_intQueue, nextWord_intQueue,
           pop_intQueue, push_intQueue, skipConditional_intQueue, ite_intQueue,
           ite_self, List.length_append, List.length_cons, List.length_nil, MAX_INTQUEUE] at *
    omega
  rw [if_neg h9] at h
  by_cases h10 : w &&& 0x001f = SHR
  · rw [if_pos h10] at h
    injection h with h
    subst h
    try simp only [setLoc_intQueue, pushValue_intQueue, lea_intQueue, nextWord_intQueue,
           pop_intQueue, push_intQueue, skipConditional_intQueue, ite_intQueue,
           ite_self, List.length_append, List.length_cons, List.length_nil, MAX_INTQUEUE] at *
    omega
  rw [if_neg h10] at h
  by_cases h11 : w &&& 0x001f = ASR
  · rw [if_pos h11] at h
    injection h with h
    subst h
    try simp only [setLoc_intQueue, pushValue_intQueue, lea_intQueue, nextWord_intQueue,
           pop_intQueue, push_intQueue, skipConditional_intQueue, ite_intQueue,
           ite_self, List.length_append, List.length_cons, List.length_nil, MAX_INTQUEUE] at *
    omega
  rw [if_neg h11] at h
  by_cases h12 : w &&& 0x001f = SHL
  · rw [if_pos h12] at h
    injection h with h
    subst h
    try simp only [setLoc_intQueue, pushValue_intQueue, lea_intQueue, nextWord_intQueue,
           pop_intQueue, push_intQueue, skipConditional_intQueue, ite_intQueue,
           ite_self, List.length_append, List.length_cons, List.length_nil, MAX_INTQUEUE] at *
    omega
  rw [if_neg h12] at h
  by_cases h13 : w &&& 0x001f = IFB
  · rw [if_pos h13] at h
    injection h with h
    subst h
    try simp only [setLoc_intQueue, pushValue_intQueue, lea_intQueue, nextWord_intQueue,
           pop_intQueue, push_intQueue, skipConditional_intQueue, ite_intQueue,
           ite_self, List.length_append, List.length_cons, List.length_nil, MAX_INTQUEUE] at *
    omega
  rw [if_neg h13] at h
  by_cases h14 : w &&& 0x001f = IFC
  · rw [if_pos h14] at h
    injection h with h
    subst h
    try simp only [setLoc_intQueue, pushValue_intQueue, lea_intQueue, nextWord_intQueue,
           pop_intQueue, push_intQueue, skipConditional_intQueue, ite_intQueue,
           ite_self, List.length_append, List.length_cons, List.length_nil, MAX_INTQUEUE] at *
    omega
  rw [if_neg h14] at h
  by_cases h15 : w &&& 0x001f = IFE
  · rw [if_pos h15] at h
    injection h with h
    subst h
    try simp only [setLoc_intQueue, pushValue_intQueue, lea_intQueue, nextWord_intQueue,
           pop_intQueue, push_intQueue, skipConditional_intQueue, ite_intQueue,
           ite_self, List.length_append, List.length_cons, List.length_nil, MAX_INTQUEUE] at *
    omega
  rw [if_neg h15] at h
  by_cases h16 : w &&& 0x001f = IFN
  · rw [if_pos h16] at h
    injection h with h
    subst h
    try simp only [setLoc_intQueue, pushValue_intQueue, lea_intQueue, nextWord_intQueue,
           pop_intQueue, push_intQueue, skipConditional_intQueue, ite_intQueue,
           ite_self, List.length_append, List.length_cons, List.length_nil, MAX_INTQUEUE] at *
    omega
  rw [if_neg h16] at h
  by_cases h17 : w &&& 0x001f = IFG
  · rw [if_pos h17] at h
    injection h with h
    subst h
    try simp only [setLoc_intQueue, pushValue_intQueue, lea_intQueue, nextWord_intQueue,
           pop_intQueue, push_intQueue, skipConditional_intQueue, ite_intQueue,
           ite_self, List.length_append, List.length_cons, List.length_nil, MAX_INTQUEUE] at *
    omega
  rw [if_neg h17] at h
  by_cases h18 : w &&& 0x001f = IFA
  · rw [if_pos h18] at h
    injection h with h
    subst h
    try simp only [setLoc_intQueue, pushValue_intQueue, lea_intQueue, nextWord_intQueue,
           pop_intQueue, push_intQueue, skipConditional_intQueue, ite_intQueue,
           ite_self, List.length_append, List.length_cons, List.length_nil, MAX_INTQUEUE] at *
    omega
  rw [if_neg h18] at h
  by_cases h19 : w &&& 0x001f = IFL
  · rw [if_pos h19] at h
    injection h with h
    subst h
    try simp only [setLoc_intQueue, pushValue_intQueue, lea_intQueue, nextWord_intQueue,
           pop_intQueue, push_intQueue, skipConditional_intQueue, ite_intQueue,
           ite_self, List.length_append, List.length_cons, List.length_nil, MAX_INTQUEUE] at *
    omega
  rw [if_neg h19] at h
  by_cases h20 : w &&& 0x001f = IFU
  · rw [if_pos h20] at h
    injection h with h
    subst h
    try simp only [setLoc_intQueue, pushValue_intQueue, lea_intQueue, nextWord_intQueue,
           pop_intQueue, push_intQueue, skipConditional_intQueue, ite_intQueue,
           ite_self, List.length_append, List.length_cons, List.length_nil, MAX_INTQUEUE] at *
    omega
  rw [if_neg h20] at h
  by_cases h21 : w &&& 0x001f = ADX
  · rw [if_pos h21] at h
    injection h with h
    subst h
    try simp only [setLoc_intQueue, pushValue_intQueue, lea_intQueue, nextWord_intQueue,
           pop_intQueue, push_intQueue, skipConditional_intQueue, ite_intQueue,
           ite_self, List.length_append, List.length_cons, List.length_nil, MAX_INTQUEUE] at *
    omega
  rw [if_neg h21] at h
  by_cases h22 : w &&& 0x001f = SBX
  · rw [if_pos h22] at h
    injection h with h
    subst h
    try simp only [setLoc_intQueue, pushValue_intQueue, lea_intQueue, nextWord_intQueue,
           pop_intQueue, push_intQueue, skipConditional_intQueue, ite_intQueue,
           ite_self, List.length_append, List.length_cons, List.length_nil, MAX_INTQUEUE] at *
    omega
  rw [if_neg h22] at h
  by_cases h23 : w &&& 0x001f = STI ∨ w &&& 0x001f = STD
  · rw [if_pos h23] at h
    injection h with h
    subst h
    try simp only [setLoc_intQueue, pushValue_intQueue, lea_intQueue, nextWord_intQueue,
           pop_intQueue, push_intQueue, skipConditional_intQueue, ite_intQueue,
           ite_self, List.length_append, List.length_cons, List.length_nil, MAX_INTQUEUE] at *
    omega
  rw [if_neg h23] at h
  injection h with h
  subst h
  try simp only [setLoc_intQueue, pushValue_intQueue, lea_intQueue, nextWord_intQueue,
    pop_intQueue, push_intQueue, skipConditional_intQueue, ite_intQueue,
    ite_self, List.length_append, List.length_cons, List.length_nil, MAX_INTQUEUE] at *
  omega

/-- Through execute, a queue within the 256 bound stays within it. -/
theorem execute_queue_length (c c1 : CPU) (hle : c.intQueue.length ≤ 256)
    (h : execute c = some c1) : c1.intQueue.length ≤ 256 := by
  simp only [execute] at h
  by_cases hE : (lea (lea (nextWord c).2 (((nextWord c).1 &&& 0xFC00) >>> 10) Role.ra).2
      (((nextWord c).1 &&& 0x03E0) >>> 5) Role.rb).1 = Loc.tmpb ∧
      ¬(IFB ≤ (nextWord c).1 ∧ (nextWord c).1 ≤ IFU)
  · rw [if_pos hE] at h
    injection h with h
    subst h
    simpa using hle
  · rw [if_neg hE] at h
    exact dispatch_queue _ _ _ _ _ (by simpa using hle) h

/-- The interrupt-boundary block never enqueues: the queue length never
grows across processInterrupt. -/
theorem processInterrupt_queue_length (c : CPU) :
    (processInterrupt c).intQueue.length ≤ c.intQueue.length := by
  rcases hq : c.intQueue with _ | ⟨m, rest⟩
  · cases hb : c.intQueueing <;> simp [processInterrupt, hb, hq]
  · cases hb : c.intQueueing
    · simp only [processInterrupt, hb, hq]
      by_cases hia : c.ia ≠ 0
      · simp [hia]
      · simp [hia]
    · simp [processInterrupt, hb, hq]

@[simp] theorem nextWord_fst (c : CPU) : (nextWord c).1 = c.memory (wrap c.pc) := rfl

/-! ## Claim theorems -/

/-- C2: the conditional skip does not consume the skipped instruction's
operand words.  Concretely: after IFN A, A (condition false) followed by the
two-word instruction SET A, next-word-literal, the code leaves PC = 2 (one
word consumed) and tick = 3, where the claimed full-footprint skip would
leave PC = 3.  The chain check compares the full word against IFB..IFU, so
real IFx words never chain either. -/
theorem c2_skip_eval : ((execute c2in).map fun c => (c.pc, c.tick)) = some (2, 3) := by
  rfl

/-- C3: a basic instruction whose b operand is the next-word literal (code
0x1F) is suppressed entirely, not just its assignment: for ADD 0x1F-literal,
30 with destination word 0xFFFF the overflow must set EX = 1 per the claim,
but the code returns early and leaves EX = 0 (and charges no ADD cycle:
tick = 2, the two fetches only). -/
theorem c3_literal_dest_eval :
    ((execute c3in).map fun c => (c.ex, c.pc, c.tick)) = some (0, 2, 2) := by
  rfl

/-- C4: DIV computes EX as (b/a) >> 16, which is always 0, instead of the
claimed ((b<<16)/a) & 0xFFFF.  For DIV A, B with A = 1, B = 2 the claim
requires EX = 0x8000; the code yields EX = 0 (quotient 0 in A, +2 cycles
charged: tick = 3). -/
theorem c4_div_eval :
    ((execute c4in).map fun c => (c.ex, c.register 0, c.tick)) = some (0, 0, 3) := by
  rfl

/-- C5: MOD takes the signed branch for every encoding whose full opcode
word differs from 8, because the branch test compares the whole instruction
word with the MOD constant.  For MOD A, B with A = 0xFFFF, B = 2 the claim
requires the unsigned remainder 1; the code computes int16(-1) % int16(2)
= -1 and stores 0xFFFF. -/
theorem c5_mod_eval :
    ((execute c5in).map fun c => (c.register 0, c.tick)) = some (65535, 3) := by
  rfl

/-- C6: STI decrements I and J for every encoding whose full opcode word
differs from 30, because the increment/decrement choice compares the whole
instruction word with the STI constant.  For STI A, B from the zero state
the claim requires I = J = 1; the code yields I = J = 0xFFFF. -/
theorem c6_sti_eval :
    ((execute c6in).map fun c => (c.register 0, c.register 6, c.register 7)) =
      some (0, 65535, 65535) := by
  rfl

/-- C7 counterexample: the instruction at pc of c7in has the undefined
primary opcode 0x18, yet execute succeeds (no fault) and the machine keeps
running: runFor 3 also succeeds, so Run does not exit. -/
theorem c7_counterexample :
    c7in.memory (wrap c7in.pc) &&& 0x001f = 0x18 ∧
    (execute c7in).isSome = true ∧ (runFor 3 c7in).isSome = true :=
  ⟨rfl, rfl, rfl⟩

/-- C7 (amended): an undefined primary opcode (0x18, 0x19, 0x1C or 0x1D) is
not a fault: execute succeeds, memory, registers, EX, IA and the interrupt
state are untouched (only pc, sp, tick and the scratch words may move), and
the step completes normally.  For extended instructions the arm dispatches
on the VALUE of the resolved a operand, not on the instruction word's
extended-opcode field; whenever that dispatched value is not one of the
listed extended opcodes, the arm is the identity on the state (no fault,
no effect). -/
theorem c7_undefined_nofault :
    (∀ c : CPU,
      (c.memory (wrap c.pc) &&& 0x001f = 0x18 ∨ c.memory (wrap c.pc) &&& 0x001f = 0x19 ∨
       c.memory (wrap c.pc) &&& 0x001f = 0x1c ∨ c.memory (wrap c.pc) &&& 0x001f = 0x1d) →
      ∃ c1, execute c = some c1 ∧ step c = some (processInterrupt c1) ∧
        c1.memory = c.memory ∧ c1.register = c.register ∧ c1.ex = c.ex ∧
        c1.ia = c.ia ∧ c1.intQueue = c.intQueue ∧ c1.intQueueing = c.intQueueing) ∧
    (∀ (op : Nat) (aloc : Loc) (c : CPU),
      ¬(op = JSR ∨ op = INT ∨ op = IAG ∨ op = IAS ∨ op = RFI ∨ op = IAQ ∨
        op = HWN ∨ op = HWQ ∨ op = HWI) →
      extOp op aloc c = some c) := by
  refine ⟨?_, ?_⟩
  case refine_2 =>
    intro op aloc c h
    push_neg at h
    obtain ⟨h1, h2, h3, h4, h5, h6, h7, h8, h9⟩ := h
    unfold extOp
    rw [if_neg h1, if_neg h2, if_neg h3, if_neg h4, if_neg h5, if_neg h6, if_neg h7,
        if_neg h8, if_neg h9]
  intro c h
  rcases h with h | h | h | h
  all_goals
    by_cases hE : (lea (lea (nextWord c).2 ((c.memory (wrap c.pc) &&& 0xFC00) >>> 10) Role.ra).2
        ((c.memory (wrap c.pc) &&& 0x03E0) >>> 5) Role.rb).1 = Loc.tmpb ∧
        ¬(IFB ≤ c.memory (wrap c.pc) ∧ c.memory (wrap c.pc) ≤ IFU)
    · have hex : execute c = some ((lea (lea (nextWord c).2
          ((c.memory (wrap c.pc) &&& 0xFC00) >>> 10) Role.ra).2
          ((c.memory (wrap c.pc) &&& 0x03E0) >>> 5) Role.rb).2) := by
        simp only [execute, nextWord_fst]
        rw [if_pos hE]
      exact ⟨_, hex, by simp [step, hex], by simp, by simp, by simp, by simp, by simp, by simp⟩
    · have hex : execute c = some ((lea (lea (nextWord c).2
          ((c.memory (wrap c.pc) &&& 0xFC00) >>> 10) Role.ra).2
          ((c.memory (wrap c.pc) &&& 0x03E0) >>> 5) Role.rb).2) := by
        simp only [execute, nextWord_fst]
        rw [if_neg hE]
        unfold dispatch
        rw [if_neg (by simp [h]), if_neg (by simp [h]), if_neg (by simp [h]),
            if_neg (by simp [h]), if_neg (by simp [h]), if_neg (by simp [h]),
            if_neg (by simp [h]), if_neg (by simp [h]), if_neg (by simp [h]),
            if_neg (by simp [h]), if_neg (by simp [h]), if_neg (by simp [h]),
            if_neg (by simp [h]), if_neg (by simp [h]), if_neg (by simp [h]),
            if_neg (by simp [h]), if_neg (by simp [h]), if_neg (by simp [h]),
            if_neg (by simp [h]), if_neg (by simp [h]), if_neg (by simp [h]),
            if_neg (by simp [h]), if_neg (by simp [h]), if_neg (by simp [h])]
      exact ⟨_, hex, by simp [step, hex], by simp, by simp, by simp, by simp, by simp, by simp⟩

/-- C7 (amended) witness: the primary-opcode part applied at the concrete
state c7in (instruction word 0x18, undefined primary opcode 0x18), and the
extended-arm part applied at the undefined dispatched value 2 on the
concrete state c7ext. -/
theorem c7_undefined_nofault_witness :
    ((c7in.memory (wrap c7in.pc) &&& 0x001f = 0x18 ∨
      c7in.memory (wrap c7in.pc) &&& 0x001f = 0x19 ∨
      c7in.memory (wrap c7in.pc) &&& 0x001f = 0x1c ∨
      c7in.memory (wrap c7in.pc) &&& 0x001f = 0x1d) ∧
     (∃ c1, execute c7in = some c1 ∧ step c7in = some (processInterrupt c1) ∧
       c1.memory = c7in.memory ∧ c1.register = c7in.register ∧ c1.ex = c7in.ex ∧
       c1.ia = c7in.ia ∧ c1.intQueue = c7in.intQueue ∧
       c1.intQueueing = c7in.intQueueing)) ∧
    (¬((2 : Nat) = JSR ∨ (2 : Nat) = INT ∨ (2 : Nat) = IAG ∨ (2 : Nat) = IAS ∨
       (2 : Nat) = RFI ∨ (2 : Nat) = IAQ ∨ (2 : Nat) = HWN ∨ (2 : Nat) = HWQ ∨
       (2 : Nat) = HWI) ∧
     extOp 2 Loc.tmpa c7ext = some c7ext) :=
  ⟨⟨Or.inl rfl, c7_undefined_nofault.1 c7in (Or.inl rfl)⟩,
   ⟨by decide, c7_undefined_nofault.2 2 Loc.tmpa c7ext (by decide)⟩⟩

/-- C1: at the instruction boundary inside step (after execute yields t),
interrupt delivery happens exactly when queueing is off, the queue is
non-empty and IA is non-zero: the head m is dequeued, queueing set, PC then
A pushed, PC set to IA and A to m; with IA = 0 the head is removed with no
other change; with queueing on or an empty queue nothing happens; and at
most one message is dequeued per boundary. -/
theorem c1_interrupt_boundary (c t : CPU) (h : execute c = some t) :
    step c = some (processInterrupt t) ∧
    (∀ m rest, t.intQueueing = false → t.intQueue = m :: rest →
      (t.ia ≠ 0 →
        processInterrupt t =
          (let t1 := pushValue { t with intQueue := rest, intQueueing := true } t.pc
           let t2 := pushValue t1 (t.register 0)
           { t2 with pc := t.ia, register := Function.update t2.register 0 m })) ∧
      (t.ia = 0 → processInterrupt t = { t with intQueue := rest })) ∧
    (t.intQueueing = true ∨ t.intQueue = [] → processInterrupt t = t) ∧
    t.intQueue.length ≤ (processInterrupt t).intQueue.length + 1 := by
  refine ⟨by simp [step, h], ?_, ?_, ?_⟩
  · intro m rest hqf hq
    constructor
    · intro hia
      simp only [processInterrupt, hqf, hq]
      simp [hia]
    · intro hia
      simp only [processInterrupt, hqf, hq]
      simp [hia]
  · intro h0
    rcases h0 with h0 | h0
    · rcases hq : t.intQueue with _ | ⟨m, rest⟩ <;> simp [processInterrupt, h0, hq]
    · cases hb : t.intQueueing <;> simp [processInterrupt, hb, h0]
  · rcases hq : t.intQueue with _ | ⟨m, rest⟩
    · cases hb : t.intQueueing <;> simp [processInterrupt, hb, hq]
    · cases hb : t.intQueueing
      · simp only [processInterrupt, hb, hq]
        by_cases hia : t.ia ≠ 0
        · simp [hia]
        · simp [hia]
      · simp [processInterrupt, hb, hq]

/-- C1 witness: the interrupt-boundary theorem applied at the concrete state
c1w (literal-destination SET at pc, one queued message, IA = 0x42), whose
execute hypothesis is discharged by computation. -/
theorem c1_interrupt_boundary_witness :
    execute c1w = some c1t ∧ step c1w = some (processInterrupt c1t) :=
  ⟨rfl, (c1_interrupt_boundary c1w c1t rfl).1⟩

/-- C8: the interrupt queue never outgrows 256 messages across a step, and
an INT instruction (extended opcode 8, here encoded with the embedded
literal 8 as operand a and register A as operand b, word 0xA400) executed
with the queue already holding 256 messages is a fatal machine fault:
execute returns none. -/
theorem c8_queue_bound :
    (∀ c c1 : CPU, c.intQueue.length ≤ 256 → step c = some c1 →
        c1.intQueue.length ≤ 256) ∧
    (∀ c : CPU, c.memory (wrap c.pc) = 0xA400 → c.intQueue.length = 256 →
        execute c = none) := by
  constructor
  · intro c c1 hle h
    unfold step at h
    cases he : execute c with
    | none => rw [he] at h; cases h
    | some t =>
      rw [he, Option.map_some'] at h
      injection h with h
      subst h
      exact le_trans (processInterrupt_queue_length t) (execute_queue_length c t hle he)
  · intro c hw hlen
    have e1 : (41984 &&& 64512) >>> 10 = 41 := rfl
    have e2 : (41984 &&& 992) >>> 5 = 0 := rfl
    have e3 : 41984 &&& 31 = 0 := rfl
    have hop : getLoc (setLoc (nextWord c).2 (tmpLoc Role.ra) (wrap 65544)) (tmpLoc Role.ra) = 8 :=
      rfl
    simp only [execute, nextWord_fst, hw, lea, e1, e2, e3]
    norm_num
    rw [if_neg (by decide : ¬((Loc.reg 0 : Loc) = Loc.tmpb))]
    simp only [dispatch, e3]
    rw [if_true]
    simp only [hop]
    unfold extOp
    rw [if_neg (by decide : ¬((8 : Nat) = JSR)), if_pos (rfl : (8 : Nat) = INT)]
    rw [if_neg (by simp [hlen])]
/-- C9: the stack is full-descending with PUSH pre-decrementing and POP
post-incrementing SP: pushing x and then popping yields x back with SP
restored; PUSH moves SP to SP-1 (mod 2^16) before writing, POP reads
memory[SP] before moving SP to SP+1; and the first PUSH from SP = 0 writes
address 0xFFFF. -/
theorem c9_push_pop (c : CPU) (x : Nat) (hx : x < W) (hsp : c.sp < W) :
    getLoc (pushValue c x) (pop (pushValue c x)).1 = x ∧
    (pop (pushValue c x)).2.sp = c.sp ∧
    (pushValue c x).sp = (c.sp + (W - 1)) % W ∧
    (pop c).2.sp = (c.sp + 1) % W ∧
    getLoc c (pop c).1 = c.memory c.sp ∧
    (c.sp = 0 → (pushValue c x).sp = 0xFFFF ∧ (pushValue c x).memory 0xFFFF = x) := by
  have hx6 : x < 65536 := hx
  have hsp6 : c.sp < 65536 := hsp
  have hs1 : wrap (wrap (c.sp + (W - 1))) = wrap (c.sp + (W - 1)) := by
    unfold wrap W; omega
  refine ⟨?_, ?_, ?_, ?_, ?_, ?_⟩
  · simp only [pushValue, pop, getLoc]
    rw [hs1, Function.update_same]
    unfold wrap W; omega
  · simp only [pushValue, pop]
    unfold wrap W; omega
  · simp only [pushValue]
    unfold wrap W; rfl
  · simp only [pop]
    unfold wrap W; rfl
  · simp only [pop, getLoc]
    rw [show wrap c.sp = c.sp from by unfold wrap W; omega]
  · intro h0
    constructor
    · simp only [pushValue]
      rw [h0]
      unfold wrap W; rfl
    · simp only [pushValue]
      rw [h0]
      rw [show wrap (0 + (W - 1)) = 0xFFFF from by unfold wrap W; rfl]
      rw [Function.update_same]
      unfold wrap W; omega


/-- C9 witness: the push/pop round trip applied at the zeroed machine with
the word 7. -/
theorem c9_push_pop_witness :
    7 < W ∧ c9w.sp < W ∧ getLoc (pushValue c9w 7) (pop (pushValue c9w 7)).1 = 7 ∧
    (pop (pushValue c9w 7)).2.sp = c9w.sp :=
  ⟨by decide, by decide, (c9_push_pop c9w 7 (by decide) (by decide)).1,
   (c9_push_pop c9w 7 (by decide) (by decide)).2.1⟩

/-- C10: Registers is a pure snapshot operation: it returns the CPU state
unchanged together with a fresh 14-word list holding, in order, the eight
general registers, PC, SP, EX, IA, the tick counter and the queueing flag
as 0/1.  The returned list is a value: in this embedding (mirroring the Go
make-and-copy) no later machine transition can alter it, and altering it
cannot affect the machine. -/
theorem c10_registers_frame (c : CPU) :
    (Registers c).2 = c ∧
    (Registers c).1 =
      [c.register 0, c.register 1, c.register 2, c.register 3, c.register 4,
       c.register 5, c.register 6, c.register 7, c.pc, c.sp, c.ex, c.ia, c.tick,
       (if c.intQueueing then 1 else 0)] ∧
    (Registers c).1.length = 14 :=
  ⟨rfl, rfl, rfl⟩

/-- C8 witness: the step-invariant part applied at the concrete state c8w
(empty queue, literal-destination SET at every address), and the fault part
applied at c8f (full queue, INT at pc); both hypotheses are discharged by
computation. -/
theorem c8_queue_bound_witness :
    (c8w.intQueue.length ≤ 256 ∧ step c8w = some c8wOut ∧
      c8wOut.intQueue.length ≤ 256) ∧
    (c8f.memory (wrap c8f.pc) = 0xA400 ∧ c8f.intQueue.length = 256 ∧
      execute c8f = none) :=
  ⟨⟨by decide, rfl, c8_queue_bound.1 c8w c8wOut (by decide) rfl⟩,
   ⟨rfl, rfl, c8_queue_bound.2 c8f rfl rfl⟩⟩

end DCPU16
